import Mathlib

/-!
# Verification of the `triq` trio/Qt guest-mode bridge

Shallow embedding of `src/triq/triq.py` (and the test host `src/triq/test/mock_qt.py`).
The module holds a bounded trio memory channel of task requests plus a distinguished
exit sentinel; `run` starts a trio guest run whose main coroutine drains the channel
and spawns each request into a nursery; a Qt-event reentry bridge injects the trio
scheduler steps into the host loop.
-/

namespace Triq

/-- `_MAX_CONCURRENT_TASKS = 100` (triq.py line 30): capacity of the module-level
memory channel. -/
def MAX_CONCURRENT_TASKS : Nat := 100

/-- An element of the memory channel: either the `_EXIT` sentinel object
(triq.py line 33) or a task request `(fn, av)` enqueued by `call_async`.
`F` stands for the callable-plus-arguments payload. -/
inductive Item (F : Type) where
  | EXIT : Item F
  | task : F → Item F
deriving DecidableEq, Repr

/-- State of a `trio.open_memory_channel(cap)` pair (triq.py line 31): a FIFO
buffer bounded by `cap`.  Producers append at the back, the single consumer
takes from the front. -/
structure Channel (F : Type) where
  buf : List (Item F)
  cap : Nat
deriving DecidableEq, Repr

/-- The only exception `MemorySendChannel.send_nowait` raises on a full (open)
channel: `trio.WouldBlock`. -/
inductive SendError where
  | WouldBlock : SendError
deriving DecidableEq, Repr

/-- `trio.MemorySendChannel.send_nowait(x)`: non-blocking enqueue; appends `x`
to the buffer if it holds fewer than `cap` items, otherwise raises
`trio.WouldBlock`.  It never suspends the caller and never drops an item. -/
def send_nowait (ch : Channel F) (x : Item F) : Except SendError (Channel F) :=
  if ch.buf.length < ch.cap then Except.ok ⟨ch.buf ++ [x], ch.cap⟩
  else Except.error SendError.WouldBlock

/-- `triq.exit()` (triq.py lines 36-37): `_send_channel.send_nowait(_EXIT)`. -/
def exit (ch : Channel F) : Except SendError (Channel F) :=
  send_nowait ch Item.EXIT

/-- `triq.call_async(fn, *av)` (triq.py lines 40-41):
`_send_channel.send_nowait((fn, av))`. -/
def call_async (ch : Channel F) (f : F) : Except SendError (Channel F) :=
  send_nowait ch (Item.task f)

/-- A sequence of `call_async` submissions with no intervening consumption:
returns the resulting channel and, per call, whether `send_nowait` succeeded
(`true`) or raised `WouldBlock` (`false`).  A failed send leaves the channel
unchanged. -/
def submitAll (ch : Channel F) : List F → Channel F × List Bool
  | [] => (ch, [])
  | f :: rest =>
    match call_async ch f with
    | Except.ok ch2 =>
      let r := submitAll ch2 rest
      (r.1, true :: r.2)
    | Except.error _ =>
      let r := submitAll ch rest
      (r.1, false :: r.2)

/-- The spawn trace of `_main` (triq.py lines 56-63): the consumer iterates the
receive channel in FIFO order; on the `_EXIT` sentinel it breaks out of the
loop, otherwise it calls `nursery.start_soon(run_task, fn, *av)`.  Given the
buffer contents, this is the list of payloads handed to the nursery, in order. -/
def mainSpawns : List (Item F) → List F
  | [] => []
  | Item.EXIT :: _ => []
  | Item.task f :: rest => f :: mainSpawns rest

/-- What is left in the channel buffer once `_main`'s loop has broken at the
first `_EXIT` sentinel: everything enqueued behind that sentinel is never
received again (the loop body is the only consumer). -/
def mainRemaining : List (Item F) → List (Item F)
  | [] => []
  | Item.EXIT :: rest => rest
  | Item.task _ :: rest => mainRemaining rest

/-- `_main` when `nursery.cancel_scope.cancel` has fired (the
`app.lastWindowClosed` connection, triq.py line 58): the `receive` underlying
the `async for` raises `trio.Cancelled` at iteration `k`, so the loop exits
after processing the first `k` items (stopping earlier at a sentinel). -/
def mainSpawnsCancelled : Nat → List (Item F) → List F
  | _, [] => []
  | 0, _ :: _ => []
  | _ + 1, Item.EXIT :: _ => []
  | k + 1, Item.task f :: rest => f :: mainSpawnsCancelled k rest

/-- Observable outcome of one `run_task` invocation (triq.py lines 49-54):
`raised` is the exception propagating out of the task into the nursery, and
`handlerCalls` counts invocations of the `_exception_handler(err)` line. -/
structure TaskRun (E : Type) where
  raised : Option E
  handlerCalls : Nat
deriving DecidableEq, Repr

/-- `run_task(fn, *av)` (triq.py lines 49-54): awaits the body; when the body
raises `err`, the `except` block executes `raise err`, so control leaves the
block immediately and the following `_exception_handler(err)` statement is
unreachable dead code.  `E` is the exception type, and the body's behaviour is
abstracted as `Except E Unit`. -/
def run_task (body : Except E Unit) : TaskRun E :=
  match body with
  | Except.ok _ => ⟨none, 0⟩
  | Except.error e => ⟨some e, 0⟩

/-- The exceptions the spawned children re-raise into the nursery, in spawn
order. -/
def childErrors (bodies : List (Except E Unit)) : List E :=
  bodies.filterMap fun b => (run_task b).raised

/-- Total number of `_exception_handler` invocations across a group of
children. -/
def totalHandlerCalls (bodies : List (Except E Unit)) : Nat :=
  (bodies.map fun b => (run_task b).handlerCalls).sum

/-- Observable outcome of the `async with trio.open_nursery()` block in `_main`
(triq.py lines 57-63): `outcome` is what the block raises or returns, and
`cancelled` records whether the nursery cancelled the remaining children. -/
structure GroupRun (E : Type) where
  outcome : Except E Unit
  cancelled : Bool
  handlerCalls : Nat
deriving Repr

/-- trio nursery semantics for a group of spawned children: if any child's
`run_task` re-raises, the nursery cancels the whole scope (all siblings) and
re-raises the error out of the `async with` block; otherwise the block exits
normally.  (trio aggregates several simultaneous errors; the first suffices
for the observable policy.) -/
def runGroup (bodies : List (Except E Unit)) : GroupRun E :=
  match childErrors bodies with
  | [] => ⟨Except.ok (), false, totalHandlerCalls bodies⟩
  | e :: _ => ⟨Except.error e, true, totalHandlerCalls bodies⟩

/-- Observable outcome of `_done(trio_main_outcome)` (triq.py lines 65-67):
whether `app.quit()` got called, and the exception `unwrap()` re-raised, if
any. -/
structure DoneRun (E : Type) where
  quitCalled : Bool
  raised : Option E
deriving DecidableEq, Repr

/-- `_done` (triq.py lines 65-67): `trio_main_outcome.unwrap()` runs first; on
an error outcome `unwrap()` re-raises the exception, so the following
`app.quit()` line is never reached.  Only a value outcome reaches `app.quit()`. -/
def done_callback (outcome : Except E Unit) : DoneRun E :=
  match outcome with
  | Except.ok _ => ⟨true, none⟩
  | Except.error e => ⟨false, some e⟩

/-- `ReenterEvent` (triq.py lines 14-19): a Qt event object wrapping the
callable `fn` passed to the constructor; `consume()` (lines 21-23) invokes the
wrapped callable once and returns `False`. -/
structure ReenterEvent (C : Type) where
  fn : C
deriving DecidableEq, Repr

/-- `_schedule(callable_)` (triq.py lines 69-70): wrap the callable in a fresh
`ReenterEvent` and post it on the host loop's native event queue with
`app.postEvent`.  `q` is the host queue contents. -/
def schedulePost (q : List (ReenterEvent C)) (cb : C) : List (ReenterEvent C) :=
  q ++ [ReenterEvent.mk cb]

/-- A sequence of `_schedule` calls, in order. -/
def scheduleAll (q : List (ReenterEvent C)) (cbs : List C) : List (ReenterEvent C) :=
  cbs.foldl schedulePost q

/-- Host-loop dispatch of the posted events: Qt delivers each queued event
object exactly once to `Reenter.event` (triq.py lines 25-27), which calls
`event.consume()`, running the wrapped callable exactly once; the event object
is then destroyed.  Returns the execution trace of callbacks on the host
thread. -/
def dispatchAll (q : List (ReenterEvent C)) : List C :=
  q.map ReenterEvent.fn

/-- The exception `asyncio` raises from `call_soon_threadsafe` on a closed
loop. -/
inductive LoopError where
  | runtimeErrorLoopClosed : LoopError
deriving DecidableEq, Repr

/-- State of the asyncio loop owned by `MockApp` (mock_qt.py lines 14-17):
`closed` becomes true in the `finally` of `exec_` (line 33), i.e. exactly when
the host loop has terminated; `pending` are the scheduled wrapper callbacks. -/
structure MockLoop (C : Type) where
  closed : Bool
  pending : List C
deriving DecidableEq, Repr

/-- `asyncio.AbstractEventLoop.call_soon_threadsafe(wrapper)`: enqueues the
callback for the loop thread; on a closed loop it raises
`RuntimeError('Event loop is closed')`. -/
def call_soon_threadsafe (l : MockLoop C) (cb : C) : Except LoopError (MockLoop C) :=
  if l.closed then Except.error LoopError.runtimeErrorLoopClosed
  else Except.ok ⟨l.closed, l.pending ++ [cb]⟩

/-- `MockApp.postEvent(object, event)` (mock_qt.py lines 19-25): builds a
wrapper that calls `event.consume()` (the wrapped callable) and hands it to
`self.loop.call_soon_threadsafe`.  Composed with `_schedule` (triq.py lines
69-70) this is what a bridge `schedule(cb)` call does against the mock host. -/
def postEvent (l : MockLoop C) (ev : ReenterEvent C) : Except LoopError (MockLoop C) :=
  call_soon_threadsafe l ev.fn

end Triq

namespace Triq

/- Sanity checks of the embedding on concrete inputs. -/

example : mainSpawns [Item.task 1, Item.task 2, Item.EXIT, Item.task 3] = [1, 2] := by decide

example : mainRemaining [Item.task 1, Item.EXIT, Item.task 3] = [Item.task 3] := by decide

example : send_nowait (⟨[Item.task 0], 1⟩ : Channel Nat) (Item.task 1) =
    Except.error SendError.WouldBlock := rfl

example : (submitAll (⟨[], 2⟩ : Channel Nat) [5, 6, 7]).2 = [true, true, false] := by decide

example : mainSpawnsCancelled 1 [Item.task 4, Item.task 5] = [4] := by decide

example : runGroup [Except.ok (), Except.error (3 : Nat)] =
    ⟨Except.error 3, true, 0⟩ := rfl

example : done_callback (Except.error (0 : Nat)) = ⟨false, some 0⟩ := rfl

example : dispatchAll (scheduleAll ([] : List (ReenterEvent Nat)) [1, 2]) = [1, 2] := by decide

example : postEvent (⟨true, []⟩ : MockLoop Nat) ⟨7⟩ =
    Except.error LoopError.runtimeErrorLoopClosed := rfl

end Triq

namespace Triq

/-! ## Helper lemmas -/

/-- The payloads of a buffer segment, in order. -/
def payloads : List (Item F) → List F
  | [] => []
  | Item.EXIT :: rest => payloads rest
  | Item.task f :: rest => f :: payloads rest

theorem payloads_append (xs ys : List (Item F)) :
    payloads (xs ++ ys) = payloads xs ++ payloads ys := by
  induction xs with
  | nil => rfl
  | cons x rest ih => cases x <;> simp [payloads, ih]

/-- A buffer holding no sentinel is consumed entirely, spawning every payload
in order. -/
theorem mainSpawns_no_exit (xs : List (Item F)) (h : Item.EXIT ∉ xs) :
    mainSpawns xs = payloads xs := by
  induction xs with
  | nil => rfl
  | cons x rest ih =>
    cases x with
    | EXIT => exact absurd (List.mem_cons_self _ _) h
    | task f =>
      have : Item.EXIT ∉ rest := fun hm => h (List.mem_cons_of_mem _ hm)
      simp [mainSpawns, payloads, ih this]

/-- Splitting the consumer run at a sentinel-free prefix. -/
theorem mainSpawns_append_no_exit (xs ys : List (Item F)) (h : Item.EXIT ∉ xs) :
    mainSpawns (xs ++ ys) = payloads xs ++ mainSpawns ys := by
  induction xs with
  | nil => rfl
  | cons x rest ih =>
    cases x with
    | EXIT => exact absurd (List.mem_cons_self _ _) h
    | task f =>
      have : Item.EXIT ∉ rest := fun hm => h (List.mem_cons_of_mem _ hm)
      simp [mainSpawns, payloads, ih this]

/-- Once a sentinel is in the buffer, whatever is enqueued behind it never
affects the spawn trace. -/
theorem mainSpawns_append_exit (xs ys : List (Item F)) (h : Item.EXIT ∈ xs) :
    mainSpawns (xs ++ ys) = mainSpawns xs := by
  induction xs with
  | nil => cases h
  | cons x rest ih =>
    cases x with
    | EXIT => rfl
    | task f =>
      have : Item.EXIT ∈ rest := by
        rcases List.mem_cons.mp h with h1 | h1
        · exact absurd h1 (by simp)
        · exact h1
      simp [mainSpawns, ih this]

/-- Items enqueued behind the first sentinel stay in the buffer when the
consumer breaks. -/
theorem mainRemaining_append (xs ys : List (Item F)) (h : Item.EXIT ∈ xs) :
    mainRemaining (xs ++ ys) = mainRemaining xs ++ ys := by
  induction xs with
  | nil => cases h
  | cons x rest ih =>
    cases x with
    | EXIT => rfl
    | task f =>
      have : Item.EXIT ∈ rest := by
        rcases List.mem_cons.mp h with h1 | h1
        · exact absurd h1 (by simp)
        · exact h1
      simp [mainRemaining, ih this]

/-- A buffer of bare task requests (no sentinel yet) is spawned in full, in
submission order. -/
theorem mainSpawns_map_task (fs : List F) :
    mainSpawns (fs.map Item.task) = fs := by
  induction fs with
  | nil => rfl
  | cons f rest ih => simp [mainSpawns, ih]

/-- The cancelled consumer processes exactly the prefix before the
cancellation point. -/
theorem mainSpawnsCancelled_eq_take (buf : List (Item F)) :
    ∀ k, mainSpawnsCancelled k buf = mainSpawns (buf.take k) := by
  induction buf with
  | nil => intro k; cases k <;> rfl
  | cons x rest ih =>
    intro k
    cases k with
    | zero => cases x <;> rfl
    | succ k => cases x <;> simp [mainSpawnsCancelled, mainSpawns, ih k]

/-- `submitAll` retains exactly the requests that fit in the remaining
capacity, in order, appended behind the existing buffer. -/
theorem submitAll_buf (fs : List F) :
    ∀ buf cap, (submitAll (⟨buf, cap⟩ : Channel F) fs).1 =
      ⟨buf ++ (fs.take (cap - buf.length)).map Item.task, cap⟩ := by
  induction fs with
  | nil => intro buf cap; simp [submitAll]
  | cons f rest ih =>
    intro buf cap
    by_cases h : buf.length < cap
    · have hk : cap - buf.length = (cap - (buf.length + 1)) + 1 := by omega
      simp only [submitAll, call_async, send_nowait, if_pos h]
      rw [ih (buf ++ [Item.task f]) cap]
      simp [hk, List.append_assoc]
    · have hk : cap - buf.length = 0 := by omega
      simp only [submitAll, call_async, send_nowait, if_neg h]
      rw [ih buf cap]
      simp [hk]

/-- Per-call success pattern of an uninterrupted submission burst: the first
`cap - buf.length` calls succeed and every later call raises `WouldBlock`. -/
theorem submitAll_results (fs : List F) :
    ∀ buf cap, (submitAll (⟨buf, cap⟩ : Channel F) fs).2 =
      List.replicate (min fs.length (cap - buf.length)) true ++
        List.replicate (fs.length - (cap - buf.length)) false := by
  induction fs with
  | nil => intro buf cap; simp [submitAll]
  | cons f rest ih =>
    intro buf cap
    by_cases h : buf.length < cap
    · have hk : cap - buf.length = (cap - (buf.length + 1)) + 1 := by omega
      simp only [submitAll, call_async, send_nowait, if_pos h]
      rw [ih (buf ++ [Item.task f]) cap]
      have h1 : min (rest.length + 1) (cap - buf.length) =
          min rest.length (cap - (buf.length + 1)) + 1 := by omega
      have h2 : rest.length + 1 - (cap - buf.length) =
          rest.length - (cap - (buf.length + 1)) := by omega
      simp [List.length_append, h1, h2, List.replicate_succ]
    · have hk : cap - buf.length = 0 := by omega
      simp only [submitAll, call_async, send_nowait, if_neg h]
      rw [ih buf cap]
      simp [hk, List.replicate_succ]

/-- Every `run_task` leaves the `_exception_handler` line unexecuted. -/
theorem totalHandlerCalls_eq_zero (bodies : List (Except E Unit)) :
    totalHandlerCalls bodies = 0 := by
  induction bodies with
  | nil => rfl
  | cons b rest ih =>
    cases b <;> simpa [totalHandlerCalls, run_task] using ih

/-- A failing child contributes its exception to the nursery. -/
theorem childErrors_ne_nil (bodies : List (Except E Unit)) (e : E)
    (h : Except.error e ∈ bodies) : childErrors bodies ≠ [] := by
  induction bodies with
  | nil => cases h
  | cons b rest ih =>
    cases b with
    | ok u => simp only [childErrors, List.filterMap_cons, run_task]
              rcases List.mem_cons.mp h with h1 | h1
              · cases h1
              · exact ih h1
    | error e2 => simp [childErrors, run_task]

/-- Every exception the nursery sees came from some child body. -/
theorem mem_childErrors (bodies : List (Except E Unit)) (e : E)
    (h : e ∈ childErrors bodies) : Except.error e ∈ bodies := by
  induction bodies with
  | nil => cases h
  | cons b rest ih =>
    cases b with
    | ok u =>
      simp only [childErrors, List.filterMap_cons, run_task] at h
      exact List.mem_cons_of_mem _ (ih h)
    | error e2 =>
      simp only [childErrors, List.filterMap_cons, run_task] at h
      rcases List.mem_cons.mp h with h1 | h1
      · exact h1 ▸ List.mem_cons_self _ _
      · exact List.mem_cons_of_mem _ (ih h1)

/-- A `_schedule` burst appends one fresh envelope per callback, in order. -/
theorem scheduleAll_eq (cbs : List C) :
    ∀ q, scheduleAll q cbs = q ++ cbs.map ReenterEvent.mk := by
  induction cbs with
  | nil => intro q; simp [scheduleAll]
  | cons cb rest ih =>
    intro q
    simp [scheduleAll, List.foldl_cons, schedulePost] at ih ⊢
    rw [ih]
    simp

end Triq

namespace Triq

/-! ## Claim theorems -/

/-- Claim C1: for every spawned task whose body raises an unhandled exception,
the system follows exactly one consistent failure policy — here fail-fast:
`run_task` re-raises, so the nursery cancels the whole group and the error
propagates out of `_main`, never reaching the dead `_exception_handler` line
and never being silently swallowed. -/
theorem task_failure_fail_fast (bodies : List (Except E Unit)) (e : E)
    (h : Except.error e ∈ bodies) :
    (runGroup bodies).handlerCalls = 0 ∧
    (runGroup bodies).cancelled = true ∧
    ∃ e2, Except.error e2 ∈ bodies ∧ (runGroup bodies).outcome = Except.error e2 := by
  have hne := childErrors_ne_nil bodies e h
  cases hc : childErrors bodies with
  | nil => exact absurd hc hne
  | cons e2 rest =>
    have hg : runGroup bodies = ⟨Except.error e2, true, totalHandlerCalls bodies⟩ := by
      simp [runGroup, hc]
    rw [hg]
    refine ⟨totalHandlerCalls_eq_zero bodies, rfl, e2, ?_, rfl⟩
    exact mem_childErrors bodies e2 (by rw [hc]; exact List.mem_cons_self _ _)

/-- Witness for C1 at the concrete group `[Except.error 3]`. -/
theorem task_failure_fail_fast_witness :
    (Except.error 3 : Except Nat Unit) ∈ ([Except.error 3] : List (Except Nat Unit)) ∧
    ((runGroup ([Except.error 3] : List (Except Nat Unit))).handlerCalls = 0 ∧
      (runGroup ([Except.error 3] : List (Except Nat Unit))).cancelled = true ∧
      ∃ e2, (Except.error e2 : Except Nat Unit) ∈ ([Except.error 3] : List (Except Nat Unit)) ∧
        (runGroup ([Except.error 3] : List (Except Nat Unit))).outcome = Except.error e2) :=
  ⟨List.mem_cons_self _ _,
    task_failure_fail_fast ([Except.error 3] : List (Except Nat Unit)) 3
      (List.mem_cons_self _ _)⟩

/-- Claim C2 counterexample: when the coordination coroutine exits with an
error outcome, `_done` calls `trio_main_outcome.unwrap()` first, which
re-raises, so `app.quit()` is NOT invoked — contradicting the claim that every
run reaching the Stopped state invokes the host loop's quit. -/
theorem done_error_skips_quit_cex :
    (done_callback (Except.error (0 : Nat))).quitCalled = false ∧
    (done_callback (Except.error (0 : Nat))).raised = some 0 :=
  ⟨rfl, rfl⟩

/-- Claim C2 (amended): `app.quit()` is invoked exactly when the coordination
coroutine's outcome is a success value; on an error outcome `unwrap()`
re-raises into the host dispatch before the `app.quit()` line is reached. -/
theorem done_quit_iff_ok (outcome : Except E Unit) :
    (done_callback outcome).quitCalled = outcome.isOk := by
  cases outcome <;> rfl

/-- Claim C3: submitting capacity+1 = 101 requests with no consumption from a
fresh channel: the first 100 `send_nowait` calls succeed, the 101st raises
`WouldBlock` synchronously, and exactly the first 100 requests sit in the
buffer in order (no blocking, no silent drop). -/
theorem submit_overflow_at_capacity_plus_one (fs : List F) (h : fs.length = 101) :
    (submitAll (⟨[], MAX_CONCURRENT_TASKS⟩ : Channel F) fs).2 =
      List.replicate 100 true ++ [false] ∧
    (submitAll (⟨[], MAX_CONCURRENT_TASKS⟩ : Channel F) fs).1.buf =
      (fs.take 100).map Item.task := by
  constructor
  · rw [submitAll_results]
    simp [h, MAX_CONCURRENT_TASKS, List.replicate_succ]
  · rw [submitAll_buf]
    simp [MAX_CONCURRENT_TASKS]

/-- Witness for C3 at the concrete burst `List.range 101`. -/
theorem submit_overflow_at_capacity_plus_one_witness :
    (List.range 101).length = 101 ∧
    ((submitAll (⟨[], MAX_CONCURRENT_TASKS⟩ : Channel Nat) (List.range 101)).2 =
        List.replicate 100 true ++ [false] ∧
      (submitAll (⟨[], MAX_CONCURRENT_TASKS⟩ : Channel Nat) (List.range 101)).1.buf =
        ((List.range 101).take 100).map Item.task) :=
  ⟨by simp, submit_overflow_at_capacity_plus_one (List.range 101) (by simp)⟩

/-- Claim C4: requests A and B submitted in that order before shutdown (no
sentinel between them) are handed to the nursery with A strictly before B:
the spawn trace decomposes around `a` and then `b`. -/
theorem spawn_fifo_order (pre mid post : List (Item F)) (a b : F)
    (hpre : Item.EXIT ∉ pre) (hmid : Item.EXIT ∉ mid) :
    ∃ l1 l2 l3, mainSpawns (pre ++ (Item.task a :: (mid ++ (Item.task b :: post)))) =
      l1 ++ a :: (l2 ++ b :: l3) := by
  refine ⟨payloads pre, payloads mid, mainSpawns post, ?_⟩
  rw [mainSpawns_append_no_exit pre _ hpre]
  rw [show mainSpawns (Item.task a :: (mid ++ (Item.task b :: post))) =
      a :: mainSpawns (mid ++ (Item.task b :: post)) from rfl]
  rw [mainSpawns_append_no_exit mid _ hmid]
  rfl

/-- Witness for C4 at a concrete buffer `[task 9, task 1, task 2, EXIT]`. -/
theorem spawn_fifo_order_witness :
    Item.EXIT ∉ [Item.task (9 : Nat)] ∧ Item.EXIT ∉ ([] : List (Item Nat)) ∧
    ∃ l1 l2 l3,
      mainSpawns ([Item.task 9] ++ (Item.task 1 :: ([] ++ (Item.task 2 :: [Item.EXIT])))) =
        l1 ++ 1 :: (l2 ++ 2 :: l3) :=
  ⟨by decide, by decide, spawn_fifo_order [Item.task 9] [] [Item.EXIT] 1 2
    (by decide) (by decide)⟩

/-- Claim C5 counterexample: a submit attempted after shutdown has begun (the
sentinel is already enqueued) does NOT fail with any distinct error kind — it
succeeds silently, and the request is never spawned. -/
theorem late_submit_no_error_cex :
    exit (⟨[], MAX_CONCURRENT_TASKS⟩ : Channel Nat) =
      Except.ok ⟨[Item.EXIT], MAX_CONCURRENT_TASKS⟩ ∧
    call_async (⟨[Item.EXIT], MAX_CONCURRENT_TASKS⟩ : Channel Nat) 0 =
      Except.ok ⟨[Item.EXIT, Item.task 0], MAX_CONCURRENT_TASKS⟩ ∧
    mainSpawns [Item.EXIT, Item.task (0 : Nat)] = [] :=
  ⟨rfl, rfl, rfl⟩

/-- Claim C5 (amended): a submit after shutdown has begun is silently
absorbed: while capacity remains it succeeds exactly like any other submit
(the only possible failure anywhere is the same `WouldBlock` overflow, so no
distinct late-submission error kind exists), and the absorbed request never
reaches the nursery. -/
theorem late_submit_silently_absorbed (xs ys : List (Item F)) (f : F) (cap : Nat)
    (h : (xs ++ Item.EXIT :: ys).length < cap) :
    call_async ⟨xs ++ Item.EXIT :: ys, cap⟩ f =
      Except.ok ⟨(xs ++ Item.EXIT :: ys) ++ [Item.task f], cap⟩ ∧
    mainSpawns ((xs ++ Item.EXIT :: ys) ++ [Item.task f]) =
      mainSpawns (xs ++ Item.EXIT :: ys) ∧
    ∀ err : SendError, err = SendError.WouldBlock := by
  refine ⟨?_, mainSpawns_append_exit _ _ (by simp), fun err => by cases err; rfl⟩
  have hl : xs.length + (ys.length + 1) < cap := by simpa using h
  simp [call_async, send_nowait, hl]

/-- Witness for C5's amended theorem at a concrete channel `[EXIT]`, cap 2. -/
theorem late_submit_silently_absorbed_witness :
    ([] ++ Item.EXIT :: ([] : List (Item Nat))).length < 2 ∧
    (call_async ⟨[] ++ Item.EXIT :: [], 2⟩ (5 : Nat) =
        Except.ok ⟨([] ++ Item.EXIT :: []) ++ [Item.task 5], 2⟩ ∧
      mainSpawns (([] ++ Item.EXIT :: []) ++ [Item.task (5 : Nat)]) =
        mainSpawns ([] ++ Item.EXIT :: []) ∧
      ∀ err : SendError, err = SendError.WouldBlock) :=
  ⟨by decide, late_submit_silently_absorbed [] [] 5 2 (by decide)⟩

/-- Claim C6 counterexample: a request enqueued after cancellation began (here
behind the sentinel) is NOT drained from the inbox — `_main` breaks at the
sentinel and the request stays in the buffer forever (it is, however, never
spawned). -/
theorem post_exit_request_not_drained_cex :
    mainRemaining [Item.EXIT, Item.task (0 : Nat)] = [Item.task 0] ∧
    mainSpawns [Item.EXIT, Item.task (0 : Nat)] = [] :=
  ⟨rfl, rfl⟩

/-- Claim C6 (amended): a request enqueued after cancellation begins is never
spawned into the group — it does not change the spawn trace and stays in the
channel buffer (left unread rather than drained); likewise, under
`cancel_scope.cancel` observed at iteration `k`, items enqueued at or past the
cancellation point never affect the spawn trace. -/
theorem post_cancel_never_spawned (xs ys : List (Item F)) (f : F) (k : Nat)
    (hk : k ≤ xs.length) :
    mainSpawns ((xs ++ Item.EXIT :: ys) ++ [Item.task f]) =
      mainSpawns (xs ++ Item.EXIT :: ys) ∧
    Item.task f ∈ mainRemaining ((xs ++ Item.EXIT :: ys) ++ [Item.task f]) ∧
    mainSpawnsCancelled k (xs ++ ys) = mainSpawnsCancelled k xs := by
  refine ⟨mainSpawns_append_exit _ _ (by simp), ?_, ?_⟩
  · rw [mainRemaining_append _ _ (by simp)]
    simp
  · rw [mainSpawnsCancelled_eq_take, mainSpawnsCancelled_eq_take,
      List.take_append_of_le_length hk]

/-- Witness for C6's amended theorem at a concrete buffer. -/
theorem post_cancel_never_spawned_witness :
    1 ≤ [Item.task (5 : Nat)].length ∧
    (mainSpawns (([Item.task 5] ++ Item.EXIT :: []) ++ [Item.task (0 : Nat)]) =
        mainSpawns ([Item.task 5] ++ Item.EXIT :: []) ∧
      Item.task 0 ∈ mainRemaining (([Item.task (5 : Nat)] ++ Item.EXIT :: []) ++ [Item.task 0]) ∧
      mainSpawnsCancelled 1 ([Item.task (5 : Nat)] ++ []) =
        mainSpawnsCancelled 1 [Item.task (5 : Nat)]) :=
  ⟨by decide, post_cancel_never_spawned [Item.task 5] [] 0 1 (by decide)⟩

/-- Claim C7 counterexample: with 99 requests already enqueued, a first
`exit()` fills the channel and succeeds, but a second `exit()` raises
`WouldBlock` — the two calls are not observably identical to one, so
"multiple calls are safe" fails unconditionally. -/
theorem double_exit_not_safe_cex :
    exit ((submitAll (⟨[], MAX_CONCURRENT_TASKS⟩ : Channel Nat) (List.range 99)).1) =
      Except.ok ⟨(List.range 99).map Item.task ++ [Item.EXIT], MAX_CONCURRENT_TASKS⟩ ∧
    exit (⟨(List.range 99).map Item.task ++ [Item.EXIT], MAX_CONCURRENT_TASKS⟩ : Channel Nat) =
      Except.error SendError.WouldBlock := by
  constructor
  · rw [submitAll_buf]
    simp [exit, send_nowait, MAX_CONCURRENT_TASKS]
  · simp [exit, send_nowait, MAX_CONCURRENT_TASKS]

/-- Claim C7 (amended): the consumer-side effect of `exit()` is idempotent —
the consumer stops at the first sentinel, so any further sentinels (and
anything behind the first) leave the spawn trace exactly as after a single
`exit()`; each call does, however, consume a capacity slot and can raise
`WouldBlock` on a full channel. -/
theorem exit_consumer_stops_at_first (xs ys : List (Item F)) :
    mainSpawns (xs ++ Item.EXIT :: ys) = mainSpawns (xs ++ [Item.EXIT]) := by
  induction xs with
  | nil => rfl
  | cons x rest ih => cases x <;> simp [mainSpawns, ih]

/-- Claim C8: each callback handed to `_schedule` is wrapped in a fresh
single-use `ReenterEvent` and the host dispatch runs each posted envelope
exactly once, so a callback scheduled exactly once executes exactly once. -/
theorem reenter_callback_exactly_once [DecidableEq C] (cbs : List C) (cb : C)
    (h : cbs.count cb = 1) :
    (dispatchAll (scheduleAll [] cbs)).count cb = 1 := by
  rw [scheduleAll_eq]
  simp only [List.nil_append, dispatchAll, List.map_map]
  have hid : (ReenterEvent.fn ∘ ReenterEvent.mk) = (id : C → C) := rfl
  rw [hid, List.map_id]
  exact h

/-- Witness for C8 at the concrete schedule burst `[3, 4]`. -/
theorem reenter_callback_exactly_once_witness :
    ([3, 4] : List Nat).count 3 = 1 ∧
    (dispatchAll (scheduleAll [] [3, 4])).count (3 : Nat) = 1 :=
  ⟨by decide, reenter_callback_exactly_once [3, 4] 3 (by decide)⟩

/-- Claim C9 counterexample: a bridge `schedule` call made after the mock host
loop has terminated (its asyncio loop is closed) raises
`RuntimeError('Event loop is closed')` out of `call_soon_threadsafe` — an
error, not a silent no-op. -/
theorem schedule_after_close_raises_cex :
    postEvent (⟨true, []⟩ : MockLoop Nat) (ReenterEvent.mk 0) =
      Except.error LoopError.runtimeErrorLoopClosed :=
  rfl

/-- Claim C9 (amended): `_schedule` delegates entirely to the host's
`postEvent`; against the in-repo mock host, every schedule after the loop has
closed raises `RuntimeError` (the callback is not enqueued) instead of being a
silent no-op. -/
theorem schedule_after_close_raises (l : MockLoop C) (ev : ReenterEvent C)
    (h : l.closed = true) :
    postEvent l ev = Except.error LoopError.runtimeErrorLoopClosed := by
  simp [postEvent, call_soon_threadsafe, h]

/-- Witness for C9's amended theorem at a concrete closed loop. -/
theorem schedule_after_close_raises_witness :
    (⟨true, [5]⟩ : MockLoop Nat).closed = true ∧
    postEvent (⟨true, [5]⟩ : MockLoop Nat) (ReenterEvent.mk 7) =
      Except.error LoopError.runtimeErrorLoopClosed :=
  ⟨rfl, schedule_after_close_raises ⟨true, [5]⟩ (ReenterEvent.mk 7) rfl⟩

/-- Claim C10: requests submitted before the runner starts are all retained in
the module-level channel (when they fit in the capacity), in submission order,
and once `_main` starts consuming they are all spawned in that same order —
pre-start submission is never lost. -/
theorem prestart_submissions_retained (fs : List F)
    (h : fs.length ≤ MAX_CONCURRENT_TASKS) :
    (submitAll (⟨[], MAX_CONCURRENT_TASKS⟩ : Channel F) fs).2 =
      List.replicate fs.length true ∧
    (submitAll (⟨[], MAX_CONCURRENT_TASKS⟩ : Channel F) fs).1.buf =
      fs.map Item.task ∧
    mainSpawns (fs.map Item.task) = fs := by
  refine ⟨?_, ?_, mainSpawns_map_task fs⟩
  · rw [submitAll_results]
    have h1 : min fs.length (MAX_CONCURRENT_TASKS - ([] : List (Item F)).length) =
        fs.length := by
      simp [MAX_CONCURRENT_TASKS] at h ⊢; omega
    have h2 : fs.length - (MAX_CONCURRENT_TASKS - ([] : List (Item F)).length) = 0 := by
      simp [MAX_CONCURRENT_TASKS] at h ⊢; omega
    rw [h1, h2]
    simp
  · rw [submitAll_buf]
    have h3 : fs.take (MAX_CONCURRENT_TASKS - ([] : List (Item F)).length) = fs := by
      apply List.take_of_length_le
      simpa [MAX_CONCURRENT_TASKS] using h
    rw [h3]
    simp

/-- Witness for C10 at the concrete pre-start burst `[7, 8, 9]`. -/
theorem prestart_submissions_retained_witness :
    ([7, 8, 9] : List Nat).length ≤ MAX_CONCURRENT_TASKS ∧
    ((submitAll (⟨[], MAX_CONCURRENT_TASKS⟩ : Channel Nat) [7, 8, 9]).2 =
        List.replicate ([7, 8, 9] : List Nat).length true ∧
      (submitAll (⟨[], MAX_CONCURRENT_TASKS⟩ : Channel Nat) [7, 8, 9]).1.buf =
        ([7, 8, 9] : List Nat).map Item.task ∧
      mainSpawns (([7, 8, 9] : List Nat).map Item.task) = [7, 8, 9]) :=
  ⟨by decide, prestart_submissions_retained [7, 8, 9] (by decide)⟩

end Triq
